import Mathlib

set_option maxHeartbeats 1000000

/-!
Shallow embedding of src/cheapest_model_3.py (a Turo weekend-rental scraper)
and verification of its specification claims.

Dates are modelled as integers counting days since 1970-01-01, which was a
Thursday (Python isoweekday 4).  The value of datetime.date.today() is passed
explicitly as a parameter named today.
-/

deriving instance DecidableEq for Except

/-- Line 17: TURO_ROOT_URL. -/
def TURO_ROOT_URL : String := "https://turo.com"

/-- Lines 20-21: the DAYS tuple, first element empty so isoweekday indexes it. -/
def DAYS : List String :=
  ["", "MONDAY", "TUESDAY", "WEDNESDAY", "THURSDAY", "FRIDAY", "SATURDAY", "SUNDAY"]

/-- DAYS.index of FRIDAY, as used at lines 34 and 194. -/
def FRIDAY : Int := (DAYS.indexOf "FRIDAY" : Nat)

/-- DAYS.index of SUNDAY, as used at line 195. -/
def SUNDAY : Int := (DAYS.indexOf "SUNDAY" : Nat)

/-- Python date.isoweekday for a day count since 1970-01-01: Monday = 1 .. Sunday = 7.
Day 0 (1970-01-01) was a Thursday, so the result is (d + 3) % 7 + 1. -/
def isoweekday (d : Int) : Int := (d + 3) % 7 + 1

/-- Lines 28-29: day_of_week(weekday, date) = date + timedelta(days = weekday - date.isoweekday()). -/
def day_of_week (weekday : Int) (date : Int) : Int := date + (weekday - isoweekday date)

/-- Lines 32-36: dates_in_scope(weeks_ahead).  The today parameter models the value of
datetime.date.today(); if the Friday of the current week is already past, today is
advanced by one week, then one anchor date per week offset is produced. -/
def dates_in_scope (weeks_ahead : Nat) (today : Int) : List Int :=
  let today' := if day_of_week FRIDAY today < today then today + 7 else today
  (List.range weeks_ahead).map fun (w : Nat) => today' + 7 * (w : Int)

/-- The same calculation with the line 34-35 shift branch removed, used to state the
one-week-shift property of C7. -/
def dates_in_scope_unshifted (weeks_ahead : Nat) (today : Int) : List Int :=
  (List.range weeks_ahead).map fun (w : Nat) => today + 7 * (w : Int)

/-- Lines 193-195 of main: for each anchor date the window runs from the Friday of
its week to the Sunday of its week. -/
def windowsOf (weeks_ahead : Nat) (today : Int) : List (Int × Int) :=
  (dates_in_scope weeks_ahead today).map fun d => (day_of_week FRIDAY d, day_of_week SUNDAY d)

/-- Windows built from the unshifted anchors, for C7. -/
def windowsOfUnshifted (weeks_ahead : Nat) (today : Int) : List (Int × Int) :=
  (dates_in_scope_unshifted weeks_ahead today).map fun d => (day_of_week FRIDAY d, day_of_week SUNDAY d)

theorem FRIDAY_eq : FRIDAY = 5 := by decide

theorem SUNDAY_eq : SUNDAY = 7 := by decide

theorem isoweekday_between (d : Int) : 1 ≤ isoweekday d ∧ isoweekday d ≤ 7 := by
  unfold isoweekday
  omega

theorem day_of_week_add_weeks (w d k : Int) :
    day_of_week w (d + 7 * k) = day_of_week w d + 7 * k := by
  unfold day_of_week isoweekday
  omega

theorem isoweekday_day_of_week_friday (d : Int) :
    isoweekday (day_of_week FRIDAY d) = 5 := by
  rw [FRIDAY_eq]
  unfold day_of_week isoweekday
  omega

theorem day_of_week_sunday_friday (d : Int) :
    day_of_week SUNDAY d = day_of_week FRIDAY d + 2 := by
  rw [FRIDAY_eq, SUNDAY_eq]
  unfold day_of_week
  omega

theorem today_le_shifted_friday (t : Int) :
    t ≤ day_of_week FRIDAY (if day_of_week FRIDAY t < t then t + 7 else t) := by
  rw [FRIDAY_eq]
  unfold day_of_week isoweekday
  split <;> omega

/-- C6: for every lookahead count N and every value of today, the Date Window
Calculator yields exactly N windows; N = 0 yields the empty sequence; every window
starts on a Friday and ends exactly two days later on the Sunday of the same week
(so start < end); the windows are strictly increasing and non-overlapping (each
window ends before the next begins); and no window - in particular the first -
starts strictly before today. -/
theorem C6_windows_shape (N : Nat) (t : Int) :
    (windowsOf N t).length = N ∧
    windowsOf 0 t = [] ∧
    (∀ w ∈ windowsOf N t, isoweekday w.1 = 5 ∧ w.2 = w.1 + 2) ∧
    (windowsOf N t).Pairwise (fun a b => a.2 < b.1) ∧
    (∀ w ∈ windowsOf N t, t ≤ w.1) := by
  refine ⟨?_, ?_, ?_, ?_, ?_⟩
  · simp [windowsOf, dates_in_scope]
  · simp [windowsOf, dates_in_scope]
  · intro w hw
    simp only [windowsOf, dates_in_scope, List.mem_map, List.mem_range] at hw
    obtain ⟨k, _, rfl⟩ := hw
    constructor
    · exact isoweekday_day_of_week_friday _
    · exact day_of_week_sunday_friday _
  · simp only [windowsOf, dates_in_scope, List.map_map]
    rw [List.pairwise_map]
    refine (List.pairwise_lt_range N).imp ?_
    intro a b hab
    simp only [Function.comp]
    have h2 := day_of_week_sunday_friday ((if day_of_week FRIDAY t < t then t + 7 else t) + 7 * (a : Int))
    have ha := day_of_week_add_weeks FRIDAY (if day_of_week FRIDAY t < t then t + 7 else t) (a : Int)
    have hb := day_of_week_add_weeks FRIDAY (if day_of_week FRIDAY t < t then t + 7 else t) (b : Int)
    rw [h2, ha, hb]
    have : (a : Int) < (b : Int) := by exact_mod_cast hab
    omega
  · intro w hw
    simp only [windowsOf, dates_in_scope, List.mem_map, List.mem_range] at hw
    obtain ⟨d, ⟨k, _, rfl⟩, rfl⟩ := hw
    have h1 := day_of_week_add_weeks FRIDAY (if day_of_week FRIDAY t < t then t + 7 else t) (k : Int)
    have h2 := today_le_shifted_friday t
    simp only
    rw [h1]
    have : (0 : Int) ≤ 7 * (k : Int) := by positivity
    omega

/-- C6 witness: concrete instantiation at N = 2, today = 0 (a Thursday); the first
window (1, 3) is the Friday-Sunday pair of that week and does not start before today. -/
theorem C6_witness :
    ((1 : Int), (3 : Int)) ∈ windowsOf 2 0 ∧ isoweekday 1 = 5 ∧ (3 : Int) = 1 + 2 ∧ (0 : Int) ≤ 1 :=
  ⟨by decide,
   ((C6_windows_shape 2 0).2.2.1 (1, 3) (by decide)).1,
   ((C6_windows_shape 2 0).2.2.1 (1, 3) (by decide)).2,
   (C6_windows_shape 2 0).2.2.2.2 (1, 3) (by decide)⟩

/-- C7: when today is strictly past the Friday of the current week (the condition
at line 34), every window equals the corresponding unshifted window moved forward
by exactly seven days, and the first window starts on the following Friday
(the Friday of the current week plus one week). -/
theorem C7_saturday_shift (N : Nat) (t : Int) (h : day_of_week FRIDAY t < t) :
    windowsOf N t = (windowsOfUnshifted N t).map (fun w => (w.1 + 7, w.2 + 7)) ∧
    (0 < N → (windowsOf N t).head? = some (day_of_week FRIDAY t + 7, day_of_week FRIDAY t + 9)) := by
  constructor
  · simp only [windowsOf, windowsOfUnshifted, dates_in_scope, dates_in_scope_unshifted,
      if_pos h, List.map_map]
    refine List.map_congr_left ?_
    intro k _
    simp only [Function.comp]
    have h1 : t + 7 + 7 * (k : Int) = (t + 7 * (k : Int)) + 7 * 1 := by ring
    have h5 := day_of_week_add_weeks FRIDAY (t + 7 * (k : Int)) 1
    have h7 := day_of_week_add_weeks SUNDAY (t + 7 * (k : Int)) 1
    rw [h1, h5, h7]
    norm_num
  · intro hN
    obtain ⟨m, rfl⟩ : ∃ m, N = m + 1 := ⟨N - 1, by omega⟩
    simp only [windowsOf, dates_in_scope, if_pos h, List.range_succ_eq_map, List.map_cons,
      List.head?_cons]
    have h1 : t + 7 + 7 * ((0 : Nat) : Int) = t + 7 * 1 := by norm_num
    have h5 := day_of_week_add_weeks FRIDAY t 1
    have h7 := day_of_week_add_weeks SUNDAY t 1
    have h2 := day_of_week_sunday_friday t
    rw [h1, h5, h7]
    rw [h2]
    norm_num
    omega

/-- C7 witness: today = 2 (1970-01-03, a Saturday) is past that week Friday
(day 1), and with N = 1 the single window is the shifted one, starting on the
following Friday, day 8. -/
theorem C7_witness :
    day_of_week FRIDAY 2 < 2 ∧
    windowsOf 1 2 = (windowsOfUnshifted 1 2).map (fun w => (w.1 + 7, w.2 + 7)) ∧
    (windowsOf 1 2).head? = some (day_of_week FRIDAY 2 + 7, day_of_week FRIDAY 2 + 9) :=
  ⟨by decide,
   (C7_saturday_shift 1 2 (by decide)).1,
   (C7_saturday_shift 1 2 (by decide)).2 (by decide)⟩

/-!
Detail Enricher: Car.get_detailed_listing, lines 112-146.

A fetched detail page is modelled by the text fragments BeautifulSoup would
extract: the texts of the vehicleLabel divs, of the
vehicleDetails-descriptionText divs, and of the reservationBox divs.

Python set(...).pop() returns an arbitrary element of a set (hash-order
dependent, and varying between interpreter runs under hash randomisation).
Each such collapse is therefore modelled by a function of the deduplicated
list together with an unspecified selector value: every distinct element is
reachable for some selector, matching the arbitrary-element semantics.
-/

/-- Lines 24-25: printable(full_string) keeps the characters belonging to
string.printable, which is ASCII 0x20-0x7e plus tab, newline, carriage return,
vertical tab and form feed. -/
def pythonPrintable (c : Char) : Bool :=
  (32 ≤ c.toNat && c.toNat ≤ 126) ||
    c.toNat = 9 || c.toNat = 10 || c.toNat = 13 || c.toNat = 11 || c.toNat = 12

/-- Lines 24-25: printable. -/
def printable (s : String) : String := String.mk (s.data.filter pythonPrintable)

/-- set(xs).pop() for a list of strings: an arbitrary element of the set of
distinct values of xs, selected by c; none exactly when the set is empty
(in Python this raises KeyError). -/
def setPop (xs : List String) (c : Nat) : Option String :=
  let d := xs.dedup
  if h : d.length = 0 then none
  else some (d.get ⟨c % d.length, Nat.mod_lt _ (Nat.pos_of_ne_zero h)⟩)

/-- The characters of the keyword performance, the needle of the regex at
line 123 and of the findall at line 135. -/
def perfChars : List Char := "performance".toList

/-- Boolean prefix test on character lists (the anchored step of a regex scan). -/
def litPrefix : List Char → List Char → Bool
  | [], _ => true
  | _ :: _, [] => false
  | a :: as, b :: bs => a == b && litPrefix as bs

/-- re.findall(performance, s) is nonempty iff the needle occurs at some
position: scan every suffix for an anchored match. -/
def containsPerf : List Char → Bool
  | [] => false
  | c :: rest => litPrefix perfChars (c :: rest) || containsPerf rest

/-- Nonemptiness of re.findall(performance, s.lower()) for a string s already
lowercased by the caller. -/
def perfInString (s : String) : Bool := containsPerf s.toList

/-- Lines 134-135: performance_description = any(re.findall(performance, x.lower())
for x in self.description).  The iteration runs over the CHARACTERS x of the
description string, searching each one-character string for the needle. -/
def perfDescOf (description : String) : Bool :=
  description.data.any fun c => perfInString (String.singleton c.toLower)

/-- The first keyword of the alternation (performance)|(standard)|(long) matching
at the head of the given character list; the regex tries the alternatives in
order at a fixed position. -/
def trimAt (s : List Char) : Option String :=
  if litPrefix "performance".toList s then some "performance"
  else if litPrefix "standard".toList s then some "standard"
  else if litPrefix "long".toList s then some "long"
  else none

/-- Leftmost regex match: try each successive start position. -/
def scanTrim : List Char → Option String
  | [] => none
  | c :: rest =>
    match trimAt (c :: rest) with
    | some k => some k
    | none => scanTrim rest

/-- str.lower() at the character level. -/
def lowerChars (s : String) : List Char := s.data.map Char.toLower

/-- Lines 122-125 for one label: the first match of the trim alternation in the
lowercased label text; the inner set([x for x in trim[0] if x]).pop() is a pop
from a singleton set (exactly one alternation group is nonempty), hence
deterministic and equal to the matched keyword. -/
def firstTrimMatch (label : String) : Option String := scanTrim (lowerChars label)

/-- Lines 120-126: trims collected in document order over all vehicleLabel texts,
then collapsed by set(trims).pop() if trims else None.  tc selects which element
the unordered pop yields. -/
def extractTrim (labels : List String) (tc : Nat) : Option String :=
  let trims := labels.filterMap firstTrimMatch
  if trims.isEmpty then none else setPop trims tc

/-- Consume an exact literal, returning the remainder. -/
def parseLit : List Char → List Char → Option (List Char)
  | [], s => some s
  | _ :: _, [] => none
  | a :: as, b :: bs => if a == b then parseLit as bs else none

/-- Greedy digit run, as matched by a digit-plus regex atom. -/
def takeDigits : List Char → List Char × List Char
  | [] => ([], [])
  | c :: cs =>
    if c.isDigit then
      let p := takeDigits cs
      (c :: p.1, p.2)
    else ([], c :: cs)

/-- One captured mileage group of the regex at lines 142-144: either one or more
digits followed by the literal space-mi, or the literal Unlimited.  Greedy
matching without backtracking is equivalent here because after the digit run the
next required character is a space, never a digit. -/
def parseAllow (s : List Char) : Option (String × List Char) :=
  match takeDigits s with
  | ([], _) =>
    match parseLit "Unlimited".toList s with
    | some rest => some ("Unlimited", rest)
    | none => none
  | (ds, rest) =>
    match parseLit " mi".toList rest with
    | some rest2 => some (String.mk (ds ++ " mi".toList), rest2)
    | none => none

/-- Anchored match of the full mileage pattern of lines 142-144 at the head of
the list: the literal Distance includedDay, a group, Week, a group, Month, a
group. -/
def matchMileageAt (s : List Char) : Option (String × String × String) :=
  match parseLit "Distance includedDay".toList s with
  | none => none
  | some r1 =>
    match parseAllow r1 with
    | none => none
    | some (a1, r2) =>
      match parseLit "Week".toList r2 with
      | none => none
      | some r3 =>
        match parseAllow r3 with
        | none => none
        | some (a2, r4) =>
          match parseLit "Month".toList r4 with
          | none => none
          | some r5 =>
            match parseAllow r5 with
            | none => none
            | some (a3, _) => some (a1, a2, a3)

/-- Leftmost match of the mileage pattern, i.e. re.findall(...)[0] when findall
is nonempty, none when it is empty. -/
def findMileage : List Char → Option (String × String × String)
  | [] => none
  | c :: rest =>
    match matchMileageAt (c :: rest) with
    | some m => some m
    | none => findMileage rest

/-- The mileage triple extracted from one reservationBox text. -/
def mileageOf (box : String) : Option (String × String × String) := findMileage box.data

/-- The text fragments of one parsed detail page. -/
structure DetailPage where
  labels : List String
  descriptions : List String
  reservationBoxes : List String
  deriving DecidableEq

/-- The attributes set on self by a completed run of get_detailed_listing.
day_miles, week_miles and month_miles are none when line 145 found no match and
the three attributes were never assigned. -/
structure Detail where
  trim : Option String
  performance_trim : Bool
  description : String
  performance_description : Bool
  day_miles : Option String
  week_miles : Option String
  month_miles : Option String
  deriving DecidableEq

/-- Car.get_detailed_listing, lines 112-146, on an already fetched page.
tc, dc and rc are the selectors of the three unordered set(...).pop() collapses
(trims, description texts, reservationBox texts).  Except.error models the
KeyError raised by pop on an empty set when a required fragment class is absent
(descriptions at lines 132-133, reservation boxes at lines 140-141). -/
def getDetailedListing (page : DetailPage) (tc dc rc : Nat) : Except String Detail :=
  let trim := extractTrim page.labels tc
  let performance_trim := trim == some "performance"
  match setPop (page.descriptions.map printable) dc with
  | none => Except.error "KeyError: pop from an empty set"
  | some description =>
    let performance_description := perfDescOf description
    match setPop page.reservationBoxes rc with
    | none => Except.error "KeyError: pop from an empty set"
    | some box =>
      let am := mileageOf box
      Except.ok {
        trim := trim
        performance_trim := performance_trim
        description := description
        performance_description := performance_description
        day_miles := am.map fun m => m.1
        week_miles := am.map fun m => m.2.1
        month_miles := am.map fun m => m.2.2
      }

/-- The performance score accumulated by lines 106, 128-129 and 136-137 when
get_detailed_listing completes: one point when the selected trim equals
performance, one point when the description keyword test fired. -/
def detailScore (d : Detail) : Nat :=
  (if d.performance_trim then 1 else 0) + (if d.performance_description then 1 else 0)

/-!
Record model: Car.__init__ (lines 88-110), the retry decorator, the search
fetch (lines 39-82), the per-window assembly loop (lines 214-225) and the
window loop of main (lines 193-238).
-/

/-- The summary fields read from one element of the search response list,
already carrying the JSON types the code coerces from (numbers as rationals,
the rating field possibly null). -/
structure CarJson where
  instantBookDisplayed : Bool
  latitude : ℚ
  longitude : ℚ
  allStarHost : Bool
  averageDailyPrice : ℚ
  rating : Option ℚ
  reviewCount : Int
  renterTripsTaken : Int
  vehicleTrim : String
  vehicleYear : Int
  vehicleUrl : String
  deriving DecidableEq

/-- Python truthiness of the rating JSON value: null and zero are falsy. -/
def ratingTruthy : Option ℚ → Bool
  | none => false
  | some x => x != 0

/-- Lines 96-97: rating = car_json[rating]; self.rating = float(rating) if rating
else None.  float() is the identity on the numeric value. -/
def storedRating (r : Option ℚ) : Option ℚ := if ratingTruthy r then r else none

/-- The attributes of a constructed Car (the car_json branch of __init__).
detail is none when the get_detailed_listing call raised and the except branch
at lines 109-110 only logged, leaving the detail attributes unset. -/
structure Car where
  date_accessed : Int
  instant_book : Bool
  latitude : ℚ
  longitude : ℚ
  all_star_host : Bool
  average_daily_price : ℚ
  rating : Option ℚ
  review_count : Int
  renter_trips_taken : Int
  vehicle_trim : String
  vehicle_year : Int
  vehicle_url : String
  performance_score : Nat
  detail : Option Detail
  deriving DecidableEq

/-- Car.__init__, lines 88-110, car_json branch.  today models
datetime.date.today() at line 90.  enrich is the outcome of the
self.get_detailed_listing() call at line 108: Except.ok when it returned,
Except.error when an exception reached the handler at lines 109-110; the error
case models a failure of the page fetch at line 116, before any detail
attribute is assigned, so the detail attributes stay absent and
performance_score keeps its line 106 value 0. -/
def mkCar (j : CarJson) (today : Int) (enrich : Except String Detail) : Car :=
  { date_accessed := today
    instant_book := j.instantBookDisplayed
    latitude := j.latitude
    longitude := j.longitude
    all_star_host := j.allStarHost
    average_daily_price := j.averageDailyPrice
    rating := storedRating j.rating
    review_count := j.reviewCount
    renter_trips_taken := j.renterTripsTaken
    vehicle_trim := j.vehicleTrim
    vehicle_year := j.vehicleYear
    vehicle_url := TURO_ROOT_URL ++ j.vehicleUrl
    performance_score :=
      match enrich with
      | Except.ok d => detailScore d
      | Except.error _ => 0
    detail := enrich.toOption }

/-- Observable outcome of one call of a function wrapped by the retry decorator,
fed a script of successive attempt outcomes.  returned and raised carry the
sleeps performed so far; running means the scripted attempts were exhausted
while the loop was still going (the wrapped call has neither returned nor
raised yet); exitedLoop is the implicit None return when the while condition
is falsy at entry (tries = 0). -/
inductive RetryResult (ε α : Type) where
  | returned : α → List Nat → RetryResult ε α
  | raised : ε → List Nat → RetryResult ε α
  | running : List Nat → RetryResult ε α
  | exitedLoop : List Nat → RetryResult ε α
  deriving DecidableEq

/-- The loop of retry.api.__retry_internal:
while _tries: try return f() except: _tries -= 1; if not _tries: raise;
sleep(_delay); _delay *= backoff; _delay = min(_delay, max_delay).
tries counts down through negative values forever when it starts negative. -/
def retryInternal (tries : Int) (delay backoff maxDelay : Nat) (sleeps : List Nat) :
    List (Except ε α) → RetryResult ε α
  | [] => if tries = 0 then RetryResult.exitedLoop sleeps else RetryResult.running sleeps
  | o :: rest =>
    if tries = 0 then RetryResult.exitedLoop sleeps
    else
      match o with
      | Except.ok a => RetryResult.returned a sleeps
      | Except.error e =>
        if tries - 1 = 0 then RetryResult.raised e sleeps
        else retryInternal (tries - 1) (min (delay * backoff) maxDelay) backoff maxDelay
          (sleeps ++ [delay]) rest

/-- The decorator configuration used at lines 39, 112, 149, 159 and 173:
retry(delay=1, backoff=2, max_delay=8), with the retry package default
tries = -1, i.e. no bound on the number of attempts. -/
def turoRetry (attempts : List (Except ε α)) : RetryResult ε α :=
  retryInternal (-1) 1 2 8 [] attempts

/-- The per-attempt sleep scheduled before retry number i+1:
one second at first, then doubled and capped at eight. -/
def delaySeq : Nat → Nat
  | 0 => 1
  | i + 1 => min (delaySeq i * 2) 8

/-- The body of get_turo_listings, lines 41-82: the transport argument is the
combined outcome of requests.get plus result.json() inside the try block.  Any
exception is caught at lines 81-82 and merely logged, after which the function
falls off the end and implicitly returns None; it never raises. -/
def getTuroListingsBody (transport : Except String σ) : Option σ :=
  match transport with
  | Except.ok j => some j
  | Except.error _ => none

/-- get_turo_listings as seen by the caller: the retry decorator around a body
that always returns normally, so exactly one attempt happens. -/
def getTuroListings (transport : Except String σ) : RetryResult String (Option σ) :=
  turoRetry [Except.ok (getTuroListingsBody transport)]

/-- One appended row, lines 223-225: dict(vars(rental)) plus the weekend key. -/
structure Row where
  car : Car
  weekend : Int
  deriving DecidableEq

/-- The assembly loop of main, lines 215-225.  Each element of outcomes is the
result of Car(listing) at line 220: ok when the constructor returned, error when
it raised and the except branch at lines 221-222 logged.  last is the value the
loop-local variable rental holds from earlier iterations (none before the first
binding).  Line 223 reads rental outside the try: on a first-iteration failure
the name is unbound and a NameError propagates, modelled by Except.error. -/
def assembleRows (start : Int) : List (Except String Car) → Option Car → Except Unit (List Row)
  | [], _ => Except.ok []
  | o :: rest, last =>
    let rental : Option Car :=
      match o with
      | Except.ok c => some c
      | Except.error _ => last
    match rental with
    | none => Except.error ()
    | some r =>
      (assembleRows start rest (some r)).map fun rs => { car := r, weekend := start } :: rs

/-- The batch built for one window: the loop starts with rental unbound. -/
def assembleBatch (start : Int) (outcomes : List (Except String Car)) : Except Unit (List Row) :=
  assembleRows start outcomes none

/-- Outcome of the window loop of main: completed carries the uploaded-table
results of all windows; emptyReturn carries the results accumulated before a
window whose listings list was empty made line 208 return from main. -/
inductive MainResult (α : Type) where
  | completed : List α → MainResult α
  | emptyReturn : List α → MainResult α
  deriving DecidableEq

/-- The window loop of main, lines 193-238, at the control-flow level: one
listings list per window (the value of get_turo_listings(...)[list]); an empty
list triggers the log-and-return at lines 205-208, abandoning the loop; a
nonempty list is processed and its upload result appended. -/
def windowLoop {α : Type} (process : List CarJson → α) :
    List (List CarJson) → MainResult α
  | [] => MainResult.completed []
  | listings :: rest =>
    if listings.isEmpty then MainResult.emptyReturn []
    else
      match windowLoop process rest with
      | MainResult.completed ts => MainResult.completed (process listings :: ts)
      | MainResult.emptyReturn ts => MainResult.emptyReturn (process listings :: ts)

/-!
Concrete sample data used by counterexamples and witnesses.
-/

/-- A summary as returned by the search endpoint. -/
def jA : CarJson :=
  { instantBookDisplayed := true
    latitude := 30
    longitude := -97
    allStarHost := true
    averageDailyPrice := 60
    rating := some 5
    reviewCount := 12
    renterTripsTaken := 20
    vehicleTrim := "Standard"
    vehicleYear := 2019
    vehicleUrl := "/car/1" }

/-- A second summary. -/
def jB : CarJson :=
  { instantBookDisplayed := false
    latitude := 30
    longitude := -97
    allStarHost := false
    averageDailyPrice := 45
    rating := none
    reviewCount := 0
    renterTripsTaken := 1
    vehicleTrim := "Long Range"
    vehicleYear := 2020
    vehicleUrl := "/car/2" }

/-- A well-formed detail page with all three fragment kinds present. -/
def pageA : DetailPage :=
  { labels := ["Long Range"]
    descriptions := ["Clean Tesla"]
    reservationBoxes := ["Distance includedDay200 miWeek800 miMonth2000 mi"] }

/-- A car whose enrichment succeeded. -/
def carA : Car := mkCar jA 0 (getDetailedListing pageA 0 0 0)

/-- A car whose detail fetch raised into the handler at lines 109-110. -/
def carB : Car := mkCar jB 0 (Except.error "ConnectionError")

/-- A detail page with description present but no reservationBox fragment. -/
def pageC3 : DetailPage :=
  { labels := ["Model 3 Performance"]
    descriptions := ["Nice car"]
    reservationBoxes := [] }

/-- A detail page whose reservationBox text does not match the mileage pattern. -/
def pageC3b : DetailPage :=
  { labels := []
    descriptions := ["desc"]
    reservationBoxes := ["no mileage here"] }

/-- The detail record the enricher produces for pageC3b. -/
def dC3 : Detail :=
  { trim := none
    performance_trim := false
    description := "desc"
    performance_description := false
    day_miles := none
    week_miles := none
    month_miles := none }

/-- A detail page whose description contains the keyword performance. -/
def pageC4 : DetailPage :=
  { labels := ["Standard"]
    descriptions := ["Amazing performance sedan"]
    reservationBoxes := ["Distance includedDayUnlimitedWeekUnlimitedMonthUnlimited"] }

/-- The detail record the enricher produces for pageC4: the keyword test over
characters never fires, so performance_description is false. -/
def dC4 : Detail :=
  { trim := some "standard"
    performance_trim := false
    description := "Amazing performance sedan"
    performance_description := false
    day_miles := some "Unlimited"
    week_miles := some "Unlimited"
    month_miles := some "Unlimited" }

/-- A detail page whose labels yield two distinct trim matches. -/
def pageC5 : DetailPage :=
  { labels := ["Performance", "Standard"]
    descriptions := ["x"]
    reservationBoxes := ["y"] }

/-- The detail record the enricher produces for pageC5 under selector 0. -/
def dC5 : Detail :=
  { trim := some "performance"
    performance_trim := true
    description := "x"
    performance_description := false
    day_miles := none
    week_miles := none
    month_miles := none }

/-!
Helper lemmas.
-/

theorem setPop_isSome (xs : List String) (c : Nat) (h : xs ≠ []) :
    (setPop xs c).isSome = true := by
  have hd : xs.dedup ≠ [] := by simpa [List.dedup_eq_nil] using h
  have h0 : xs.dedup.length ≠ 0 := by simpa [List.length_eq_zero] using hd
  unfold setPop
  simp only
  rw [dif_neg h0]
  rfl

theorem setPop_mem {xs : List String} {c : Nat} {s : String}
    (h : setPop xs c = some s) : s ∈ xs := by
  unfold setPop at h
  simp only at h
  by_cases h0 : xs.dedup.length = 0
  · rw [dif_pos h0] at h
    cases h
  · rw [dif_neg h0] at h
    injection h with h1
    rw [← h1]
    exact List.mem_dedup.mp (List.get_mem _ _ _)

theorem perfChars_explicit :
    perfChars = ['p', 'e', 'r', 'f', 'o', 'r', 'm', 'a', 'n', 'c', 'e'] := rfl

theorem litPrefix_perf_singleton (c : Char) : litPrefix perfChars [c] = false := by
  rw [perfChars_explicit]
  simp [litPrefix]

theorem containsPerf_singleton (c : Char) : containsPerf [c] = false := by
  simp [containsPerf, litPrefix_perf_singleton]

theorem perfDescOf_eq_false (s : String) : perfDescOf s = false := by
  unfold perfDescOf
  rw [List.any_eq_false]
  intro c _
  have h1 : perfInString (String.singleton c.toLower) = containsPerf [c.toLower] := rfl
  simp [h1, containsPerf_singleton]

theorem delaySeq_closed (i : Nat) : delaySeq i = min (2 ^ i) 8 := by
  induction i with
  | zero => rfl
  | succ i ih =>
    rw [delaySeq, ih, pow_succ]
    omega

theorem retryInternal_err_script {α : Type} (e : String) (k : Nat) :
    ∀ (tries : Int), tries < 0 → ∀ (i : Nat) (sleeps : List Nat) (rest : List (Except String α)),
      retryInternal tries (delaySeq i) 2 8 sleeps (List.replicate k (Except.error e) ++ rest) =
      retryInternal (tries - k) (delaySeq (i + k)) 2 8
        (sleeps ++ (List.range k).map fun j => delaySeq (i + j)) rest := by
  induction k with
  | zero =>
    intro tries _ i sleeps rest
    simp
  | succ k ih =>
    intro tries htries i sleeps rest
    have hcons : List.replicate (k + 1) (Except.error e) ++ rest =
        Except.error e :: (List.replicate k (Except.error e) ++ rest) := by
      simp [List.replicate_succ]
    rw [hcons]
    have hne : tries ≠ 0 := by omega
    have hne1 : ¬(tries - 1 = 0) := by omega
    rw [retryInternal]
    rw [if_neg hne]
    rw [if_neg hne1]
    have hd : min (delaySeq i * 2) 8 = delaySeq (i + 1) := rfl
    rw [hd]
    rw [ih (tries - 1) (by omega) (i + 1) (sleeps ++ [delaySeq i]) rest]
    have e1 : tries - 1 - (k : Int) = tries - ((k : Nat) + 1 : Nat) := by
      push_cast
      ring
    have e2 : i + 1 + k = i + (k + 1) := by omega
    have e3 : (sleeps ++ [delaySeq i]) ++ (List.range k).map (fun j => delaySeq (i + 1 + j)) =
        sleeps ++ (List.range (k + 1)).map fun j => delaySeq (i + j) := by
      rw [List.range_succ_eq_map, List.map_cons, List.map_map, List.append_assoc]
      have e4 : ((fun j => delaySeq (i + j)) ∘ Nat.succ) = fun j => delaySeq (i + 1 + j) := by
        funext j
        simp [Function.comp]
        congr 1
        omega
      rw [e4]
      simp
    rw [e1, e2, e3]

/-- C2 counterexample: on a transport failure the search fetch performs exactly
one attempt, sleeps never, does not raise, and hands the caller the returned
value None - a false-empty result instead of a surfaced failure - because the
body of get_turo_listings catches the exception at lines 81-82 and falls off
the end, so the retry decorator sees a normal return. -/
theorem C2_counterexample :
    getTuroListings (Except.error "ConnectionError") =
      RetryResult.returned (none : Option (List CarJson)) [] := rfl

/-- C2 (amended): the search fetch is never retried - its body swallows every
transport failure and returns None on the first attempt - while the detail
fetch retry uses exponential backoff (one second, doubled each attempt, capped
at eight seconds per sleep) with an UNBOUNDED number of attempts: with the
retry package default tries = -1 used by the code, any number k of consecutive
failures leaves the loop still running, and a success after any k failures is
returned; retries are never exhausted, so the raise path is unreachable. -/
theorem C2_backoff_unbounded :
    (∀ t : Except String (List CarJson),
        getTuroListings t = RetryResult.returned (getTuroListingsBody t) []) ∧
    (∀ (k : Nat) (a : Nat) (e : String),
        turoRetry (List.replicate k (Except.error e) ++ [Except.ok a]) =
          RetryResult.returned a ((List.range k).map delaySeq)) ∧
    (∀ (k : Nat) (e : String),
        (turoRetry (List.replicate k (Except.error e)) : RetryResult String Nat) =
          RetryResult.running ((List.range k).map delaySeq)) ∧
    (∀ i : Nat, delaySeq i = min (2 ^ i) 8) := by
  refine ⟨fun t => rfl, ?_, ?_, delaySeq_closed⟩
  · intro k a e
    have h0 : (1 : Nat) = delaySeq 0 := rfl
    unfold turoRetry
    rw [h0]
    rw [retryInternal_err_script e k (-1) (by omega) 0 [] [Except.ok a]]
    have hne : ¬((-1 : Int) - (k : Int) = 0) := by omega
    rw [retryInternal]
    rw [if_neg hne]
    simp
  · intro k e
    have h0 : (1 : Nat) = delaySeq 0 := rfl
    unfold turoRetry
    have happ : List.replicate k (Except.error e) =
        List.replicate k (Except.error e) ++ ([] : List (Except String Nat)) := by simp
    rw [h0, happ]
    rw [retryInternal_err_script e k (-1) (by omega) 0 [] []]
    have hne : ¬((-1 : Int) - (k : Int) = 0) := by omega
    rw [retryInternal]
    rw [if_neg hne]
    simp

/-- C3 counterexample: a detail page with the reservation fragment entirely
absent (but description present) makes the enricher raise KeyError at the
set(...).pop() of lines 140-141 instead of returning unknown mileage values. -/
theorem C3_counterexample :
    getDetailedListing pageC3 0 0 0 = Except.error "KeyError: pop from an empty set" := by
  decide

/-- C3 (amended): when the reservation fragment is PRESENT but the fixed
pattern does not match it, the three mileage attributes are left unset (absent
from the record, modelled as none - not an explicit unknown string) and no
exception is raised; when the reservation fragment is entirely absent the
enricher raises (pop from an empty set), an enrichment failure.  Mileage
missing with description present is still a completed (partial) enrichment. -/
theorem C3_missing_mileage :
    (∀ (page : DetailPage) (tc dc rc : Nat),
        page.reservationBoxes = [] →
          ∃ m, getDetailedListing page tc dc rc = Except.error m) ∧
    (∀ (page : DetailPage) (tc dc rc : Nat) (d : Detail) (b : String),
        getDetailedListing page tc dc rc = Except.ok d →
        setPop page.reservationBoxes rc = some b →
        mileageOf b = none →
          d.day_miles = none ∧ d.week_miles = none ∧ d.month_miles = none) ∧
    (∀ (page : DetailPage) (tc dc rc : Nat),
        page.descriptions ≠ [] → page.reservationBoxes ≠ [] →
          (getDetailedListing page tc dc rc).toOption.isSome = true) := by
  refine ⟨?_, ?_, ?_⟩
  · intro page tc dc rc hres
    unfold getDetailedListing
    cases hd : setPop (page.descriptions.map printable) dc with
    | none => exact ⟨_, rfl⟩
    | some desc =>
      rw [hres]
      exact ⟨_, rfl⟩
  · intro page tc dc rc d b hok hpop hmil
    unfold getDetailedListing at hok
    cases hd : setPop (page.descriptions.map printable) dc with
    | none =>
      rw [hd] at hok
      cases hok
    | some desc =>
      rw [hd, hpop] at hok
      dsimp only at hok
      rw [hmil] at hok
      dsimp only [Option.map] at hok
      injection hok with h1
      rw [← h1]
      exact ⟨rfl, rfl, rfl⟩
  · intro page tc dc rc hdesc hres
    unfold getDetailedListing
    have h1 : (page.descriptions.map printable) ≠ [] := by
      simpa using hdesc
    have h2 := setPop_isSome (page.descriptions.map printable) dc h1
    have h3 := setPop_isSome page.reservationBoxes rc hres
    cases hd : setPop (page.descriptions.map printable) dc with
    | none =>
      rw [hd] at h2
      cases h2
    | some desc =>
      cases hr : setPop page.reservationBoxes rc with
      | none =>
        rw [hr] at h3
        cases h3
      | some box => rfl

/-- C3 witness: on a concrete page whose reservation text does not match the
pattern, the enricher completes and all three mileage fields are absent. -/
theorem C3_witness :
    getDetailedListing pageC3b 0 0 0 = Except.ok dC3 ∧
    setPop pageC3b.reservationBoxes 0 = some "no mileage here" ∧
    mileageOf "no mileage here" = none ∧
    (dC3.day_miles = none ∧ dC3.week_miles = none ∧ dC3.month_miles = none) :=
  ⟨by decide, by decide, by decide,
   C3_missing_mileage.2.1 pageC3b 0 0 0 dC3 "no mileage here" (by decide) (by decide) (by decide)⟩

/-- C4: the claim says a description containing the keyword performance
contributes exactly 1 to the score.  In the code the any(...) at lines 134-135
iterates the CHARACTERS of the description and searches each one-character
string for the eleven-character needle, so performance_description is false for
every description; concretely, a page whose description contains the word
performance yields performance_description false and a performance score of 0,
not 1.  The score therefore equals the trim contribution alone and lies in
{0, 1}, never reaching the description-driven values the claim requires. -/
theorem C4_description_contribution_zero :
    (∀ s : String, perfDescOf s = false) ∧
    getDetailedListing pageC4 0 0 0 = Except.ok dC4 ∧
    dC4.performance_description = false ∧
    (mkCar jA 0 (getDetailedListing pageC4 0 0 0)).performance_score = 0 :=
  ⟨perfDescOf_eq_false, by decide, by decide, by decide⟩

/-- C5 counterexample: the same detail page, with two distinct trim matches
(performance and standard), yields different enrichment results under two
admissible orders of the unordered set(trims).pop() collapse, so the selected
trim is not a fixed deterministic representative of the document. -/
theorem C5_counterexample :
    getDetailedListing pageC5 0 0 0 = Except.ok dC5 ∧
    getDetailedListing pageC5 0 0 0 ≠ getDetailedListing pageC5 1 0 0 :=
  ⟨by decide, by decide⟩

/-- C5 (amended): with multiple distinct vocabulary matches the code collapses
the document-ordered match list through an unordered set and pops an arbitrary
element (hash-order dependent, so not fixed across runs); whichever element is
selected is one of the matches found in the labels, and the performance-trim
flag is true exactly when the selected trim equals performance. -/
theorem C5_arbitrary_selection :
    ∀ (page : DetailPage) (tc dc rc : Nat) (d : Detail),
      getDetailedListing page tc dc rc = Except.ok d →
        (d.performance_trim = true ↔ d.trim = some "performance") ∧
        (∀ s, d.trim = some s → s ∈ page.labels.filterMap firstTrimMatch) := by
  intro page tc dc rc d hok
  unfold getDetailedListing at hok
  cases hd : setPop (page.descriptions.map printable) dc with
  | none =>
    rw [hd] at hok
    cases hok
  | some desc =>
    rw [hd] at hok
    cases hr : setPop page.reservationBoxes rc with
    | none =>
      rw [hr] at hok
      cases hok
    | some box =>
      rw [hr] at hok
      dsimp only at hok
      injection hok with h1
      rw [← h1]
      constructor
      · simp [beq_iff_eq]
      · intro s hs
        dsimp only at hs
        unfold extractTrim at hs
        by_cases hemp : (page.labels.filterMap firstTrimMatch).isEmpty
        · rw [if_pos hemp] at hs
          cases hs
        · rw [if_neg hemp] at hs
          exact setPop_mem hs

/-- C5 witness: the general properties instantiated on the ambiguous page under
selector 0: the selected trim is performance, the flag is set, and performance
is indeed one of the matches collected from the labels. -/
theorem C5_witness :
    getDetailedListing pageC5 0 0 0 = Except.ok dC5 ∧
    (dC5.performance_trim = true ↔ dC5.trim = some "performance") ∧
    "performance" ∈ pageC5.labels.filterMap firstTrimMatch :=
  ⟨by decide,
   (C5_arbitrary_selection pageC5 0 0 0 dC5 (by decide)).1,
   (C5_arbitrary_selection pageC5 0 0 0 dC5 (by decide)).2 "performance" (by decide)⟩

/-- C1 counterexample: one window with two listings, the first enrichable and
the second one whose detail fetch raised into the constructor handler; both
Car constructions succeed (the constructor catches the enrichment failure at
lines 107-110 and only logs), both rows are appended at lines 219-225, so the
batch has two records, not one; the failed listing is a row whose detail
attributes are all absent. -/
theorem C1_counterexample :
    (assembleBatch 1 [Except.ok carA, Except.ok carB]).map List.length = Except.ok 2 ∧
    carA.detail.isSome = true ∧
    carB.detail = none ∧
    carB.performance_score = 0 := by
  refine ⟨by decide, by decide, by decide, by decide⟩

/-- C1 (amended): a listing whose enrichment fails is NOT excluded from the
batch: the constructor catches the failure, the Car is built with only summary
attributes plus a zero performance score (all detail attributes absent), and
the assembly loop appends its row exactly like the enrichable listing, so a
window with one enrichable and one failing listing yields a batch of two
records; the failure is reported only through the log. -/
theorem C1_failed_enrichment_included (j1 j2 : CarJson) (t w : Int) (d : Detail) (msg : String) :
    assembleBatch w [Except.ok (mkCar j1 t (Except.ok d)), Except.ok (mkCar j2 t (Except.error msg))] =
      Except.ok [{ car := mkCar j1 t (Except.ok d), weekend := w },
                 { car := mkCar j2 t (Except.error msg), weekend := w }] ∧
    (mkCar j2 t (Except.error msg)).detail = none ∧
    (mkCar j2 t (Except.error msg)).performance_score = 0 :=
  ⟨rfl, rfl, rfl⟩

/-- C8 counterexample: a run whose first window has an empty (well-formed)
listings list and whose second window has a listing returns early with no
window processed at all; the same second window alone would have been
processed.  The claim that subsequent windows are still processed is false. -/
theorem C8_counterexample :
    windowLoop (fun l => l.length) [[], [jA]] = MainResult.emptyReturn [] ∧
    windowLoop (fun l => l.length) [[jA]] = MainResult.completed [1] :=
  ⟨rfl, rfl⟩

/-- C8 (amended): an empty but well-formed search result is logged and is not
retried, but it does not merely skip its own window: the return at line 208
abandons the whole loop, so every window before the empty one keeps its
completed upload (no rollback) and every window after it is never processed. -/
theorem C8_empty_aborts_run {α : Type} (process : List CarJson → α)
    (pre suf : List (List CarJson)) (hpre : ∀ l ∈ pre, l ≠ []) :
    windowLoop process (pre ++ ([] : List CarJson) :: suf) =
      MainResult.emptyReturn (pre.map process) := by
  induction pre with
  | nil => rfl
  | cons l pre ih =>
    have hl : l ≠ [] := hpre l (by simp)
    have hrest : ∀ m ∈ pre, m ≠ [] := fun m hm => hpre m (by simp [hm])
    have hle : l.isEmpty = false := by
      simpa [List.isEmpty_iff] using hl
    rw [List.cons_append, windowLoop]
    rw [hle]
    rw [ih hrest]
    simp

/-- C8 witness: one completed window, then an empty window, then another
window: the run stops with only the first upload kept. -/
theorem C8_witness :
    (∀ l ∈ [[jA]], l ≠ ([] : List CarJson)) ∧
    windowLoop (fun l => l.length) ([[jA]] ++ ([] : List CarJson) :: [[jB]]) =
      MainResult.emptyReturn [1] :=
  ⟨by simp, C8_empty_aborts_run (fun l => l.length) [[jA]] [[jB]] (by simp)⟩

/-- C9: the constructed record stores rating through the truthiness test of
line 97, so a present-but-zero rating is stored as None, indistinguishable
from an absent (null) rating; any nonzero rating is stored unchanged. -/
theorem C9_zero_rating_stored_none :
    (∀ (j : CarJson) (t : Int) (e : Except String Detail),
        (mkCar j t e).rating = storedRating j.rating) ∧
    storedRating (some 0) = none ∧
    storedRating none = none ∧
    storedRating (some 0) = storedRating none ∧
    (∀ x : ℚ, x ≠ 0 → storedRating (some x) = some x) := by
  refine ⟨fun j t e => rfl, by decide, rfl, by decide, ?_⟩
  intro x hx
  simp [storedRating, ratingTruthy, hx]

/-- C9 witness: the nonzero branch instantiated at rating 5. -/
theorem C9_witness : (5 : ℚ) ≠ 0 ∧ storedRating (some 5) = some 5 :=
  ⟨by norm_num, C9_zero_rating_stored_none.2.2.2.2 5 (by norm_num)⟩

/-- C10: in the assembly loop of lines 215-225 the row append at lines 223-225
sits outside the try, reading the loop variable rental; when Car(listing)
raises on the first listing the name is unbound and the run fails with a
NameError; when it raises on a later listing the loop appends another row built
from the most recently successfully constructed Car, duplicating it - shown
both as the general equation (a failing listing behaves exactly like a repeat
of the previous success) and on a two-listing batch. -/
theorem C10_unbound_rental_duplicate :
    (∀ (w : Int) (msg : String) (rest : List (Except String Car)),
        assembleRows w (Except.error msg :: rest) none = Except.error ()) ∧
    (∀ (w : Int) (c : Car) (msg : String) (rest : List (Except String Car)),
        assembleRows w (Except.error msg :: rest) (some c) =
          assembleRows w (Except.ok c :: rest) none) ∧
    (∀ (w : Int) (c : Car) (msg : String),
        assembleBatch w [Except.ok c, Except.error msg] =
          Except.ok [{ car := c, weekend := w }, { car := c, weekend := w }]) :=
  ⟨fun _ _ _ => rfl, fun _ _ _ _ => rfl, fun _ _ _ => rfl⟩
